import Mathlib

/-!
Verification of the Learning-Analysis repository specification.

The repository's single source file, `src/Project-setup.py`, is a scaffolding
script; it is embedded below as a pure function over an explicit filesystem
state.  The analysis core (Topic Mapper, Weakness Analyzer, Paper Assembler)
described by the specification is not present in the source tree, so it is
modelled from the specification's own words (spec.md §3, §4, §7); those
definitions carry a `Modelled from the spec:` doc comment.
-/

set_option autoImplicit false

namespace LearningAnalysis

/-- First-match association-list lookup keyed by string identifiers. -/
def lookupKey {α : Type} (l : List (String × α)) (k : String) : Option α :=
  match l with
  | [] => none
  | (k', v) :: rest => if k' = k then some v else lookupKey rest k

/-- Modelled from the spec: `StudentRecord` (§3) — the analysis core is absent
from the repository, so the record is taken from the specification: student_id,
mapping from question_id to correctness, assignment scores, participation
scores.  Marks are rationals standing for the spec's numeric scores. -/
structure StudentRecord where
  student_id : String
  mcq : List (String × Bool)
  assignments : List ℚ
  participation : List ℚ

/-- Modelled from the spec: `SyllabusTopic` (§3) — topic_id, name, subtopics. -/
structure SyllabusTopic where
  topic_id : String
  name : String
  subtopics : List String

/-- Modelled from the spec: the `QuestionTag` table (§3) — question_id to the
set of topic_ids the question tests, represented as an association list. -/
abbrev TopicMap := List (String × List String)

/-- Modelled from the spec: `MasteryScore` as a tagged variant
Known(score) / Indeterminate (§9), never collapsed to a sentinel number. -/
inductive MasteryScore where
  | known (score : ℚ)
  | indeterminate
  deriving DecidableEq

/-- Modelled from the spec: the configurable MCQ / assignment / participation
weights of the Weakness Analyzer (§4.2). -/
structure Weights where
  mcqWeight : ℚ
  assignmentWeight : ℚ
  participationWeight : ℚ
  deriving DecidableEq

/-- The total of the three configured weights. -/
def Weights.total (w : Weights) : ℚ :=
  w.mcqWeight + w.assignmentWeight + w.participationWeight

/-- A valid weight configuration: nonnegative weights summing to 1.0 (§4.2). -/
def Weights.valid (w : Weights) : Prop :=
  0 ≤ w.mcqWeight ∧ 0 ≤ w.assignmentWeight ∧ 0 ≤ w.participationWeight ∧ w.total = 1

instance (w : Weights) : Decidable w.valid := by
  unfold Weights.valid
  exact inferInstance

/-- Modelled from the spec: error kinds of the Weakness Analyzer (§7). -/
inductive AnalyzerError where
  | invalidWeightConfig
  deriving DecidableEq

/-- Modelled from the spec: the MCQ answers of a student on the questions
mapped to a given topic (§4.2, "every mapped question"). -/
def mappedQuestions (sr : StudentRecord) (tm : TopicMap) (t : String) :
    List (String × Bool) :=
  sr.mcq.filter fun qa =>
    match lookupKey tm qa.1 with
    | some ts => ts.contains t
    | none => false

/-- Average of a list of marks; 0 on an empty list. -/
def avg (l : List ℚ) : ℚ :=
  if l.isEmpty then 0 else l.sum / l.length

/-- Fraction of correct answers among a list of answered questions. -/
def correctFraction (l : List (String × Bool)) : ℚ :=
  ((l.filter fun qa => qa.2).length : ℚ) / (l.length : ℚ)

/-- Modelled from the spec: per-topic mastery (§4.2) — the weighted aggregate
of MCQ correctness on mapped questions, assignment performance and
participation; a topic with zero mapped questions for the student yields the
`Indeterminate` state, not a numeric score. -/
def masteryFor (w : Weights) (sr : StudentRecord) (tm : TopicMap) (t : String) :
    MasteryScore :=
  if (mappedQuestions sr tm t).isEmpty then .indeterminate
  else
    .known (w.mcqWeight * correctFraction (mappedQuestions sr tm t)
      + w.assignmentWeight * avg sr.assignments
      + w.participationWeight * avg sr.participation)

/-- Modelled from the spec: `analyze(StudentRecord, topic_map, syllabus) ->
mapping topic_id -> MasteryScore` (§4.2); fails with `InvalidWeightConfig`
when the weights do not sum to 1.0. -/
def analyze (w : Weights) (sr : StudentRecord) (tm : TopicMap)
    (syllabus : List SyllabusTopic) :
    Except AnalyzerError (List (String × MasteryScore)) :=
  if w.total = 1 then
    .ok (syllabus.map fun topic => (topic.topic_id, masteryFor w sr tm topic.topic_id))
  else
    .error .invalidWeightConfig

/-- Modelled from the spec: a topic is weak exactly when its mastery score is
known and falls strictly below the configured threshold (§4.2, glossary);
an Indeterminate state is never classified as weak. -/
def isWeak (threshold : ℚ) (m : MasteryScore) : Bool :=
  match m with
  | .known v => decide (v < threshold)
  | .indeterminate => false

/-- All marks of a record normalized to the unit interval. -/
def StudentRecord.normalized (sr : StudentRecord) : Prop :=
  (∀ x ∈ sr.assignments, 0 ≤ x ∧ x ≤ 1) ∧ (∀ x ∈ sr.participation, 0 ≤ x ∧ x ≤ 1)

instance (sr : StudentRecord) : Decidable sr.normalized := by
  unfold StudentRecord.normalized
  exact inferInstance

/-- Modelled from the spec: error kind of the Topic Mapper (§4.1, §7) — the
question has no entry in the syllabus reference. -/
inductive MapperError where
  | unmappedQuestion (question_id : String)
  deriving DecidableEq

/-- Modelled from the spec: `map(question_id) -> set of topic_id`, failing with
`UnmappedQuestionError` when the syllabus reference contains no entry for the
question (§4.1). -/
def TopicMapper.map (reference : TopicMap) (question_id : String) :
    Except MapperError (List String) :=
  match lookupKey reference question_id with
  | some ts => .ok ts
  | none => .error (.unmappedQuestion question_id)

/-- Modelled from the spec: a bank question — question_id plus the set of
topics it is tagged with (§3, §4.3). -/
structure Question where
  qid : String
  topics : List String
  deriving DecidableEq

/-- Modelled from the spec: `PracticePaper` (§3) — student_id, ordered
sequence of selected question_ids, target topic coverage set. -/
structure PracticePaper where
  student_id : String
  questions : List String
  coverage : List String
  deriving DecidableEq

/-- Modelled from the spec: error kind of the Paper Assembler (§4.3, §7) —
the bank cannot supply a question for a weak topic. -/
inductive AssemblerError where
  | insufficientQuestions (topic : String)
  deriving DecidableEq

/-- Modelled from the spec: candidate questions for a weak topic — bank
questions tagged with the topic and not already selected, with questions not
yet used for this student (per the usage history) preferred, bank order
preserved within each rank (§4.3). -/
def candidatesFor (bank : List Question) (historyUsed : List String)
    (selected : List String) (t : String) : List Question :=
  let tagged := bank.filter fun q => q.topics.contains t && !(selected.contains q.qid)
  (tagged.filter fun q => !(historyUsed.contains q.qid))
    ++ (tagged.filter fun q => historyUsed.contains q.qid)

/-- Modelled from the spec: deterministic tie-break among equally-ranked
candidates — an explicit seed selects an index among them, no seed means the
first candidate (§4.3). -/
def pickCandidate (seed : Option Nat) (l : List Question) : Option Question :=
  match l with
  | [] => none
  | q :: rest => some ((q :: rest).getD ((seed.getD 0) % (rest.length + 1)) q)

/-- Modelled from the spec: the assembler's selection loop (§4.3) — iterate
the weak topics in the given order; skip a topic already represented by a
selected question; otherwise pick a candidate (failing with
`InsufficientQuestionsError` when there is none) and add it while
`max_questions` has not been reached. -/
def selectForTopics (bank : List Question) (historyUsed : List String)
    (maxQuestions : Nat) (seed : Option Nat) (covered : List String)
    (selected : List String) : List String → Except AssemblerError (List String)
  | [] => .ok selected
  | t :: rest =>
    if covered.contains t then
      selectForTopics bank historyUsed maxQuestions seed covered selected rest
    else
      match pickCandidate seed (candidatesFor bank historyUsed selected t) with
      | none => .error (.insufficientQuestions t)
      | some q =>
        if selected.length < maxQuestions then
          selectForTopics bank historyUsed maxQuestions seed (covered ++ q.topics)
            (selected ++ [q.qid]) rest
        else
          .ok selected

/-- Modelled from the spec: `assemble(student_id, weak_topics, question_bank,
max_questions) -> PracticePaper`, with the usage-history collaborator and the
optional tie-break seed; fails with `InsufficientQuestionsError` when the bank
cannot supply a question for a weak topic (§4.3). -/
def assemble (student_id : String) (weak_topics : List String)
    (bank : List Question) (historyUsed : List String) (maxQuestions : Nat)
    (seed : Option Nat) : Except AssemblerError PracticePaper :=
  match selectForTopics bank historyUsed maxQuestions seed [] [] weak_topics with
  | .ok qs => .ok { student_id := student_id, questions := qs, coverage := weak_topics }
  | .error e => .error e

/-! Embedding of `src/Project-setup.py`: the filesystem is an explicit state,
a path is its list of components, and the script is a pure function from its
inputs (pre-existing filesystem, answers typed at the prompts, availability of
git) to the resulting filesystem. -/

/-- A filesystem path, as its list of components from the root. -/
abbrev Path := List String

/-- A JSON value, as written by `json.dump` in the setup script. -/
inductive JsonVal where
  | str (s : String)
  | bool (b : Bool)
  | arr (elems : List JsonVal)
  | obj (fields : List (String × JsonVal))

/-- A filesystem node: a directory, a text file, or a JSON file. -/
inductive FSNode where
  | dir
  | textFile (content : String)
  | jsonFile (value : JsonVal)

/-- A filesystem: an association list from paths to nodes; an earlier entry
shadows a later one with the same path. -/
abbrev FS := List (Path × FSNode)

/-- Look up the node at a path. -/
def FS.lookup (fs : FS) (p : Path) : Option FSNode :=
  match fs with
  | [] => none
  | (q, n) :: rest => if q = p then some n else FS.lookup rest p

/-- `shutil.rmtree`: drop every entry at or below the given root path. -/
def FS.rmtree (fs : FS) (root : Path) : FS :=
  fs.filter fun e => !(root.isPrefixOf e.1)

/-- A well-formed filesystem: the parent directory of every entry exists
(as on a real filesystem, where a child cannot exist without its parent). -/
def FS.wf (fs : FS) : Prop :=
  ∀ e ∈ fs, e.1 ≠ [] → (fs.lookup e.1.dropLast).isSome = true

instance (fs : FS) : Decidable fs.wf := by
  unfold FS.wf
  exact inferInstance

/-- `str.lower()` on a prompt answer. -/
def strLower (s : String) : String := String.mk (s.data.map Char.toLower)

/-- The project directory name hard-coded in `create_project_structure`. -/
def projectName : String := "igcse-assessment-tool"

/-- The content written by `create_gitignore`. -/
def gitignoreContent : String := String.intercalate "\n"
  ["# Python", "__pycache__/", "*.py[cod]", "*$py.class", "*.so", ".Python",
   "venv/", "env/", "ENV/", "", "# IDE", ".idea/", "*.swp", "*.swo",
   ".DS_Store", "", "# Project specific", ".env", "*.log", "output/*.pdf",
   "output/*.png", "data/real_*  # Real data files", "", "# Jupyter",
   ".ipynb_checkpoints/", "*.ipynb_checkpoints", "", "# Testing",
   ".pytest_cache/", ".coverage", "htmlcov/", ".tox/", "", "# Distribution",
   "build/", "dist/", "*.egg-info/", ""]

/-- The content written by `create_requirements`. -/
def requirementsContent : String := String.intercalate "\n"
  ["# Core dependencies", "pandas>=2.0.0", "numpy>=1.24.0", "matplotlib>=3.7.0",
   "seaborn>=0.12.0", "", "# CLI and utilities", "click>=8.1.0",
   "python-dotenv>=1.0.0", "", "# Testing", "pytest>=7.4.0", "pytest-cov>=4.1.0",
   "", "# Documentation", "jupyter>=1.0.0", "nbconvert>=7.0.0", "",
   "# PDF generation", "reportlab>=4.0.0", "", "# Data validation",
   "pydantic>=2.0.0", "", "# Type checking (optional)", "mypy>=1.5.0", ""]

/-- The content written by `create_readme`. -/
def readmeContent : String := String.intercalate "\n"
  ["# IGCSE Assessment Tool", "",
   "A lightweight assessment tool for Cambridge IGCSE teachers to diagnose student weaknesses in multiple-choice tests and automatically generate personalized practice papers.",
   "", "## Features", "",
   "- 📊 Multi-stream data integration: Combines MCQ results, assignment marks, and classroom participation",
   "- 🔍 Intelligent weakness detection: Uses item response analysis to identify knowledge gaps  ",
   "- 🎯 Topic mapping: Maps weaknesses to Cambridge IGCSE syllabus topics",
   "- 📝 Personalized papers: Automatically assembles custom practice papers from past CIE questions",
   "- 📈 Visual reports: Generates heatmaps and teacher summaries", "",
   "## Quick Start", "", "```bash", "# Create virtual environment",
   "python3 -m venv venv", "source venv/bin/activate  # Mac/Linux", "# or",
   "venv\\Scripts\\activate  # Windows", "", "# Install dependencies",
   "pip install -r requirements.txt", "", "# Run example",
   "python src/ingestion.py", "```", "", "## Project Structure", "", "```",
   "igcse-assessment-tool/", "├── src/               # Source code",
   "├── tests/             # Test files", "├── data/              # Sample data",
   "├── output/            # Generated reports",
   "└── demo.ipynb         # Demo notebook", "```", ""]

/-- The `settings` dictionary written to `.vscode/settings.json`. -/
def settingsJson : JsonVal := .obj
  [("python.linting.enabled", .bool true),
   ("python.linting.pylintEnabled", .bool false),
   ("python.linting.flake8Enabled", .bool true),
   ("python.formatting.provider", .str "black"),
   ("python.testing.pytestEnabled", .bool true),
   ("python.testing.unittestEnabled", .bool false),
   ("editor.formatOnSave", .bool true),
   ("files.exclude", .obj
     [("**/__pycache__", .bool true), ("**/*.pyc", .bool true)])]

/-- The `launch` dictionary written to `.vscode/launch.json`. -/
def launchJson : JsonVal := .obj
  [("version", .str "0.2.0"),
   ("configurations", .arr
     [.obj [("name", .str "Python: Current File"), ("type", .str "python"),
            ("request", .str "launch"), ("program", .str "${file}"),
            ("console", .str "integratedTerminal")],
      .obj [("name", .str "Python: Run Tests"), ("type", .str "python"),
            ("request", .str "launch"), ("module", .str "pytest"),
            ("args", .arr [.str "-v"]),
            ("console", .str "integratedTerminal")]])]

/-- The `syllabus` dictionary written to `data/syllabus_topics.json`. -/
def syllabusJson : JsonVal := .obj
  [("subject", .str "Mathematics"), ("code", .str "0580"),
   ("topics", .obj
     [("1", .obj [("name", .str "Number"),
        ("subtopics", .arr [.str "Integers", .str "Fractions", .str "Decimals",
          .str "Percentages"])]),
      ("2", .obj [("name", .str "Algebra & Graphs"),
        ("subtopics", .arr [.str "Linear equations", .str "Quadratics",
          .str "Inequalities", .str "Graphs"])]),
      ("3", .obj [("name", .str "Coordinate Geometry"),
        ("subtopics", .arr [.str "Distance", .str "Midpoint", .str "Gradient",
          .str "Equations of lines"])]),
      ("4", .obj [("name", .str "Geometry"),
        ("subtopics", .arr [.str "Angles", .str "Triangles",
          .str "Quadrilaterals", .str "Circles"])])])]

/-- The directories created by the `directories` loop (with `parents=True`,
so `output/student_reports` also creates `output`), relative to the project
directory. -/
def directoryEntries : List (Path × FSNode) :=
  [(["src"], .dir), (["tests"], .dir), (["data"], .dir), (["output"], .dir),
   (["output", "student_reports"], .dir), ([".vscode"], .dir)]

/-- The placeholder files touched by the `init_files` loop. -/
def initFileEntries : List (Path × FSNode) :=
  [(["src", "__init__.py"], .textFile ""), (["tests", "__init__.py"], .textFile "")]

/-- The file written by `create_gitignore`, relative to the project directory. -/
def create_gitignore : List (Path × FSNode) :=
  [([".gitignore"], .textFile gitignoreContent)]

/-- The file written by `create_requirements`. -/
def create_requirements : List (Path × FSNode) :=
  [(["requirements.txt"], .textFile requirementsContent)]

/-- The file written by `create_readme`. -/
def create_readme : List (Path × FSNode) :=
  [(["README.md"], .textFile readmeContent)]

/-- The files written by `create_vscode_config`. -/
def create_vscode_config : List (Path × FSNode) :=
  [([".vscode", "settings.json"], .jsonFile settingsJson),
   ([".vscode", "launch.json"], .jsonFile launchJson)]

/-- The files written by `create_sample_data_structure`. -/
def create_sample_data_structure : List (Path × FSNode) :=
  [(["data", "syllabus_topics.json"], .jsonFile syllabusJson),
   (["data", "sample_mcq_results.csv"],
     .textFile "student_id,q1,q2,q3,q4,q5,total_score\n"),
   (["data", "sample_assignments.csv"],
     .textFile "student_id,assignment_1,assignment_2,assignment_3,total\n"),
   (["data", "sample_participation.csv"],
     .textFile "student_id,week_1,week_2,week_3,week_4,average\n")]

/-- Everything `create_project_structure` writes under the project directory,
in execution order: the project root, the directory structure, the
`__init__.py` placeholders, the `.git` directory when `git init` succeeds
(when it fails the script only prints a warning and continues), and the
generated files. -/
def projectEntries (gitOk : Bool) : List (Path × FSNode) :=
  [([], FSNode.dir)] ++ directoryEntries ++ initFileEntries
    ++ (if gitOk then [([".git"], FSNode.dir)] else [])
    ++ create_gitignore ++ create_requirements ++ create_readme
    ++ create_vscode_config ++ create_sample_data_structure

/-- Write all project entries under the project directory `pd` on top of the
filesystem `fs`. -/
def buildProject (fs : FS) (pd : Path) (gitOk : Bool) : FS :=
  ((projectEntries gitOk).map fun e => (pd ++ e.1, e.2)) ++ fs

/-- The nonempty prefixes of a path, shortest first: `Path(p).mkdir(parents=True,
exist_ok=True)` creates each missing ancestor and then the path itself. -/
def prefixList : Path → List Path
  | [] => []
  | x :: xs => [x] :: (prefixList xs).map (x :: ·)

/-- `mkdir(parents=True, exist_ok=True)`: add a directory entry for every
nonempty prefix of the path. -/
def addPrefixes (fs : FS) (p : Path) : FS :=
  ((prefixList p).map fun pre => (pre, FSNode.dir)) ++ fs

/-- The inputs of one run of `create_project_structure`: the pre-existing
filesystem, the current working directory, the answer to the location prompt,
the custom path typed at the path prompt (`none` models an empty answer; the
path is already `expanduser`-resolved to components), the answer to the
overwrite prompt, and whether `git init` succeeds. -/
structure SetupInput where
  fs : FS
  currentDir : Path
  locResponse : String
  customPath : Option Path
  overwriteResponse : String
  gitOk : Bool

/-- The outcome of one run: the resulting filesystem, and whether the project
was created (`false` when the run printed "Project creation cancelled."). -/
structure SetupResult where
  fs : FS
  created : Bool

/-- The base directory chosen by the location prompts: the current directory
when the answer (lower-cased) is `y`, otherwise the custom path (falling back
to the current directory on an empty answer). -/
def baseDir (inp : SetupInput) : Path :=
  if strLower inp.locResponse ≠ "y" then
    match inp.customPath with
    | some p => p
    | none => inp.currentDir
  else inp.currentDir

/-- The filesystem after the location prompts: when a custom path was given
and does not exist, the script creates it with `mkdir(parents=True)`. -/
def fsAfterBase (inp : SetupInput) : FS :=
  if strLower inp.locResponse ≠ "y" then
    match inp.customPath with
    | some p => if (inp.fs.lookup p).isSome then inp.fs else addPrefixes inp.fs p
    | none => inp.fs
  else inp.fs

/-- The project directory of the run: `base_dir / project_name`. -/
def projectDir (inp : SetupInput) : Path := baseDir inp ++ [projectName]

/-- `create_project_structure` from `src/Project-setup.py`: choose the base
directory, and if the project directory already exists either cancel (answer
other than `y` at the overwrite prompt) or remove it with `shutil.rmtree`;
then create the directory structure, the placeholder files, the git
repository (when git succeeds) and the generated files. -/
def create_project_structure (inp : SetupInput) : SetupResult :=
  let fs0 := fsAfterBase inp
  let pd := projectDir inp
  if (fs0.lookup pd).isSome then
    if strLower inp.overwriteResponse ≠ "y" then
      { fs := fs0, created := false }
    else
      { fs := buildProject (fs0.rmtree pd) pd inp.gitOk, created := true }
  else
    { fs := buildProject fs0 pd inp.gitOk, created := true }

/-! Concrete inputs used by the witness theorems: the scenario of spec.md §8
(q1 correct and q2 wrong on topic T1, q3 correct on topic T2, MCQ-only
weighting), over a three-topic syllabus whose topic T3 has no mapped
question. -/

/-- MCQ-only weight configuration, as in the spec's §8 scenario. -/
def demoWeights : Weights :=
  { mcqWeight := 1, assignmentWeight := 0, participationWeight := 0 }

/-- The §8 scenario student: q1 correct, q2 wrong, q3 correct. -/
def demoStudent : StudentRecord :=
  { student_id := "s1", mcq := [("q1", true), ("q2", false), ("q3", true)],
    assignments := [], participation := [] }

/-- The §8 scenario tagging: q1 and q2 test T1, q3 tests T2. -/
def demoTopicMap : TopicMap := [("q1", ["T1"]), ("q2", ["T1"]), ("q3", ["T2"])]

/-- A three-topic syllabus; T3 has no mapped question for the demo student. -/
def demoSyllabus : List SyllabusTopic :=
  [⟨"T1", "Number", []⟩, ⟨"T2", "Algebra & Graphs", []⟩,
   ⟨"T3", "Coordinate Geometry", []⟩]

/-- The analyzer output on the demo inputs. -/
def demoAnalysis : List (String × MasteryScore) :=
  [("T1", .known (1/2)), ("T2", .known 1), ("T3", .indeterminate)]

/-- A three-question bank for the assembler witnesses. -/
def demoBank : List Question :=
  [⟨"p1", ["T1"]⟩, ⟨"p2", ["T1", "T2"]⟩, ⟨"p3", ["T2"]⟩]

/-- A fresh filesystem for the setup witnesses: a root and a home directory,
no project directory yet. -/
def demoFS : FS := [([], FSNode.dir), (["home"], FSNode.dir)]

/-- A run from `/home` confirming the default location, with git available. -/
def demoFresh : SetupInput :=
  { fs := demoFS, currentDir := ["home"], locResponse := "Y",
    customPath := none, overwriteResponse := "", gitOk := true }

/-- The same run with a failing `git init`. -/
def demoGitFail : SetupInput :=
  { fs := demoFS, currentDir := ["home"], locResponse := "Y",
    customPath := none, overwriteResponse := "", gitOk := false }

/-- A filesystem that already has the project directory, holding a user
file. -/
def demoExistingFS : FS :=
  [([], FSNode.dir), (["home"], FSNode.dir),
   (["home", "igcse-assessment-tool"], FSNode.dir),
   (["home", "igcse-assessment-tool", "keep.txt"], FSNode.textFile "precious")]

/-- The pre-existing user file under the project directory. -/
def demoUserFile : Path := ["home", "igcse-assessment-tool", "keep.txt"]

/-- A run over the existing project directory declining the overwrite. -/
def demoCancel : SetupInput :=
  { fs := demoExistingFS, currentDir := ["home"], locResponse := "y",
    customPath := none, overwriteResponse := "n", gitOk := true }

/-- A run over the existing project directory confirming the overwrite. -/
def demoOverwrite : SetupInput :=
  { fs := demoExistingFS, currentDir := ["home"], locResponse := "y",
    customPath := none, overwriteResponse := "Y", gitOk := true }

/-! Theorems. -/

/-- The average of a list of unit-interval marks lies in the unit interval. -/
theorem avg_mem_unitInterval (l : List ℚ) (h : ∀ x ∈ l, 0 ≤ x ∧ x ≤ 1) :
    0 ≤ avg l ∧ avg l ≤ 1 := by
  unfold avg
  by_cases hl : l.isEmpty
  · simp [hl]
  · simp only [hl, if_neg, Bool.false_eq_true, ite_false]
    have hne : l ≠ [] := by simpa [List.isEmpty_iff] using hl
    have hlen : 0 < (l.length : ℚ) := by
      exact_mod_cast List.length_pos.mpr hne
    refine ⟨div_nonneg (List.sum_nonneg fun x hx => (h x hx).1) hlen.le, ?_⟩
    rw [div_le_one hlen]
    have := List.sum_le_card_nsmul l 1 fun x hx => (h x hx).2
    simpa using this

/-- The fraction of correct answers on a nonempty list lies in [0,1]. -/
theorem correctFraction_mem_unitInterval (l : List (String × Bool))
    (h : l ≠ []) : 0 ≤ correctFraction l ∧ correctFraction l ≤ 1 := by
  unfold correctFraction
  have hlen : 0 < (l.length : ℚ) := by
    exact_mod_cast List.length_pos.mpr h
  refine ⟨div_nonneg (Nat.cast_nonneg _) hlen.le, ?_⟩
  rw [div_le_one hlen]
  exact_mod_cast List.length_filter_le _ l

/-- Every known per-topic mastery value of a valid configuration on a
normalized record lies in [0,1]. -/
theorem masteryFor_known_mem_unitInterval (w : Weights) (sr : StudentRecord)
    (tm : TopicMap) (t : String) (v : ℚ) (hw : w.valid) (hn : sr.normalized)
    (hv : masteryFor w sr tm t = .known v) : 0 ≤ v ∧ v ≤ 1 := by
  obtain ⟨hw1, hw2, hw3, hsum⟩ := hw
  obtain ⟨hna, hnp⟩ := hn
  unfold masteryFor at hv
  by_cases hm : (mappedQuestions sr tm t).isEmpty
  · simp [hm] at hv
  · simp only [hm, Bool.false_eq_true, ite_false, MasteryScore.known.injEq] at hv
    have hne : mappedQuestions sr tm t ≠ [] := by simpa [List.isEmpty_iff] using hm
    obtain ⟨hc0, hc1⟩ := correctFraction_mem_unitInterval _ hne
    obtain ⟨ha0, ha1⟩ := avg_mem_unitInterval _ hna
    obtain ⟨hp0, hp1⟩ := avg_mem_unitInterval _ hnp
    unfold Weights.total at hsum
    subst hv
    constructor
    · have h1 := mul_nonneg hw1 hc0
      have h2 := mul_nonneg hw2 ha0
      have h3 := mul_nonneg hw3 hp0
      linarith
    · have h1 : w.mcqWeight * correctFraction (mappedQuestions sr tm t)
          ≤ w.mcqWeight * 1 := mul_le_mul_of_nonneg_left hc1 hw1
      have h2 : w.assignmentWeight * avg sr.assignments
          ≤ w.assignmentWeight * 1 := mul_le_mul_of_nonneg_left ha1 hw2
      have h3 : w.participationWeight * avg sr.participation
          ≤ w.participationWeight * 1 := mul_le_mul_of_nonneg_left hp1 hw3
      rw [mul_one] at h1 h2 h3
      linarith

/-- C2: for every student and every topic with zero mapped questions for that
student, `analyze` returns the `Indeterminate` mastery state for that topic —
never the numeric mastery score 0 — and such a topic is not classified as
weak at any threshold. -/
theorem analyze_zero_mapped_gives_indeterminate (w : Weights)
    (sr : StudentRecord) (tm : TopicMap) (syllabus : List SyllabusTopic)
    (threshold : ℚ) (t : SyllabusTopic) (hw : w.total = 1) (ht : t ∈ syllabus)
    (hz : mappedQuestions sr tm t.topic_id = []) :
    ∃ res, analyze w sr tm syllabus = .ok res ∧
      (t.topic_id, MasteryScore.indeterminate) ∈ res ∧
      masteryFor w sr tm t.topic_id = .indeterminate ∧
      masteryFor w sr tm t.topic_id ≠ .known 0 ∧
      isWeak threshold (masteryFor w sr tm t.topic_id) = false := by
  have hm : masteryFor w sr tm t.topic_id = .indeterminate := by
    unfold masteryFor
    simp [hz]
  refine ⟨syllabus.map fun topic => (topic.topic_id, masteryFor w sr tm topic.topic_id),
    ?_, ?_, hm, ?_, ?_⟩
  · unfold analyze
    rw [if_pos hw]
  · exact List.mem_map.mpr ⟨t, ht, by rw [hm]⟩
  · rw [hm]
    exact fun h => MasteryScore.noConfusion h
  · rw [hm]
    rfl

/-- Witness for C2 at the demo inputs: T3 has no mapped question. -/
theorem analyze_zero_mapped_gives_indeterminate_witness :
    demoWeights.total = 1 ∧
    (⟨"T3", "Coordinate Geometry", []⟩ : SyllabusTopic) ∈ demoSyllabus ∧
    mappedQuestions demoStudent demoTopicMap "T3" = [] ∧
    (∃ res, analyze demoWeights demoStudent demoTopicMap demoSyllabus = .ok res ∧
      ("T3", MasteryScore.indeterminate) ∈ res ∧
      masteryFor demoWeights demoStudent demoTopicMap "T3" = .indeterminate ∧
      masteryFor demoWeights demoStudent demoTopicMap "T3" ≠ .known 0 ∧
      isWeak (1/2) (masteryFor demoWeights demoStudent demoTopicMap "T3") = false) := by
  have h1 : demoWeights.total = 1 := by simp [demoWeights, Weights.total]
  have h2 : (⟨"T3", "Coordinate Geometry", []⟩ : SyllabusTopic) ∈ demoSyllabus := by
    simp [demoSyllabus]
  have h3 : mappedQuestions demoStudent demoTopicMap "T3" = [] := by
    simp [mappedQuestions, demoStudent, demoTopicMap, lookupKey]
  exact ⟨h1, h2, h3,
    analyze_zero_mapped_gives_indeterminate demoWeights demoStudent demoTopicMap
      demoSyllabus (1/2) ⟨"T3", "Coordinate Geometry", []⟩ h1 h2 h3⟩

/-- C3: a computed mastery score exactly equal to the configured weakness
threshold is classified as not weak, and a computed score is weak exactly
when it lies strictly below the threshold. -/
theorem threshold_tie_not_weak (w : Weights) (sr : StudentRecord)
    (tm : TopicMap) (t : String) (threshold : ℚ) :
    (masteryFor w sr tm t = .known threshold →
      isWeak threshold (masteryFor w sr tm t) = false) ∧
    ∀ v : ℚ, masteryFor w sr tm t = .known v →
      (isWeak threshold (masteryFor w sr tm t) = true ↔ v < threshold) := by
  constructor
  · intro h
    rw [h]
    simp [isWeak]
  · intro v h
    rw [h]
    simp [isWeak]

/-- Witness for C3 at the demo inputs: T1 mastery is exactly the 0.5
threshold of the §8 scenario and is not weak. -/
theorem threshold_tie_not_weak_witness :
    masteryFor demoWeights demoStudent demoTopicMap "T1" = .known (1/2) ∧
    isWeak (1/2) (masteryFor demoWeights demoStudent demoTopicMap "T1") = false ∧
    (isWeak (1/2) (masteryFor demoWeights demoStudent demoTopicMap "T1") = true
      ↔ (1/2 : ℚ) < 1/2) := by
  have h : masteryFor demoWeights demoStudent demoTopicMap "T1" = .known (1/2) := by
    simp [masteryFor, mappedQuestions, demoStudent, demoTopicMap, demoWeights,
      lookupKey, correctFraction, avg]
  exact ⟨h, (threshold_tie_not_weak demoWeights demoStudent demoTopicMap "T1" (1/2)).1 h,
    (threshold_tie_not_weak demoWeights demoStudent demoTopicMap "T1" (1/2)).2 (1/2) h⟩

/-- C4: for every valid weight configuration (nonnegative weights summing to
1.0) and every normalized student record, topic map and syllabus, every
numeric mastery score in the mapping produced by `analyze` lies in the closed
interval [0,1]. -/
theorem analyze_scores_in_unit_interval (w : Weights) (sr : StudentRecord)
    (tm : TopicMap) (syllabus : List SyllabusTopic)
    (res : List (String × MasteryScore)) (hw : w.valid) (hn : sr.normalized)
    (hres : analyze w sr tm syllabus = .ok res) :
    ∀ t v, (t, MasteryScore.known v) ∈ res → 0 ≤ v ∧ v ≤ 1 := by
  intro t v hmem
  unfold analyze at hres
  rw [if_pos hw.2.2.2] at hres
  injection hres with hres
  subst hres
  obtain ⟨topic, htop, heq⟩ := List.mem_map.mp hmem
  have h1 : masteryFor w sr tm topic.topic_id = .known v := (Prod.mk.injEq _ _ _ _ ▸ heq).2
  exact masteryFor_known_mem_unitInterval w sr tm topic.topic_id v hw hn h1

/-- Witness for C4 at the demo inputs. -/
theorem analyze_scores_in_unit_interval_witness :
    demoWeights.valid ∧ demoStudent.normalized ∧
    analyze demoWeights demoStudent demoTopicMap demoSyllabus = .ok demoAnalysis ∧
    (∀ t v, (t, MasteryScore.known v) ∈ demoAnalysis → 0 ≤ v ∧ v ≤ 1) := by
  have h1 : demoWeights.valid := by
    simp [demoWeights, Weights.valid, Weights.total]
  have h2 : demoStudent.normalized := by
    simp [demoStudent, StudentRecord.normalized]
  have h3 : analyze demoWeights demoStudent demoTopicMap demoSyllabus = .ok demoAnalysis := by
    simp [analyze, Weights.total, demoWeights, demoStudent, demoTopicMap,
      demoSyllabus, demoAnalysis, masteryFor, mappedQuestions, lookupKey,
      correctFraction, avg]
  exact ⟨h1, h2, h3,
    analyze_scores_in_unit_interval demoWeights demoStudent demoTopicMap
      demoSyllabus demoAnalysis h1 h2 h3⟩

/-- C5: the assembler is deterministic — two runs on identical inputs (same
student, weak-topic ordering, question bank, usage history, length bound and
seed) produce identical practice papers. -/
theorem assemble_deterministic (sid₁ sid₂ : String) (wt₁ wt₂ : List String)
    (bank₁ bank₂ : List Question) (hist₁ hist₂ : List String)
    (max₁ max₂ : Nat) (seed₁ seed₂ : Option Nat) (hsid : sid₁ = sid₂)
    (hwt : wt₁ = wt₂) (hbank : bank₁ = bank₂) (hhist : hist₁ = hist₂)
    (hmax : max₁ = max₂) (hseed : seed₁ = seed₂) :
    assemble sid₁ wt₁ bank₁ hist₁ max₁ seed₁
      = assemble sid₂ wt₂ bank₂ hist₂ max₂ seed₂ := by
  subst hsid hwt hbank hhist hmax hseed
  rfl

/-- Witness for C5: two runs on the same concrete inputs coincide. -/
theorem assemble_deterministic_witness :
    ("s1" : String) = "s1" ∧ (["T1", "T2"] : List String) = ["T1", "T2"] ∧
    demoBank = demoBank ∧ ([] : List String) = [] ∧ (5 : Nat) = 5 ∧
    (none : Option Nat) = none ∧
    assemble "s1" ["T1", "T2"] demoBank [] 5 none
      = assemble "s1" ["T1", "T2"] demoBank [] 5 none :=
  ⟨rfl, rfl, rfl, rfl, rfl, rfl,
    assemble_deterministic "s1" "s1" ["T1", "T2"] ["T1", "T2"] demoBank demoBank
      [] [] 5 5 none none rfl rfl rfl rfl rfl rfl⟩

/-- C6: when the weak-topic sequence is non-empty and the bank contains no
question tagged with any of the weak topics, `assemble` fails with
`InsufficientQuestionsError` instead of returning a practice paper. -/
theorem assemble_insufficient_fails (sid : String) (weak_topics : List String)
    (bank : List Question) (hist : List String) (maxQuestions : Nat)
    (seed : Option Nat) (hne : weak_topics ≠ [])
    (hnone : ∀ q ∈ bank, ∀ t ∈ weak_topics, q.topics.contains t = false) :
    ∃ t, t ∈ weak_topics ∧
      assemble sid weak_topics bank hist maxQuestions seed
        = .error (.insufficientQuestions t) := by
  obtain ⟨t, rest, rfl⟩ := List.exists_cons_of_ne_nil hne
  refine ⟨t, List.mem_cons_self t rest, ?_⟩
  have hcand : candidatesFor bank hist [] t = [] := by
    unfold candidatesFor
    have htag : (bank.filter fun q => q.topics.contains t && !(List.contains [] q.qid)) = [] := by
      rw [List.filter_eq_nil_iff]
      intro q hq
      have hqt : t ∉ q.topics := by
        simpa using hnone q hq t (List.mem_cons_self t rest)
      simp [hqt]
    rw [htag]
    rfl
  unfold assemble
  rw [selectForTopics]
  simp [hcand, pickCandidate]

/-- Witness for C6: the bank has no question tagged "T9". -/
theorem assemble_insufficient_fails_witness :
    (["T9"] : List String) ≠ [] ∧
    (∀ q ∈ demoBank, ∀ t ∈ (["T9"] : List String), q.topics.contains t = false) ∧
    (∃ t, t ∈ (["T9"] : List String) ∧
      assemble "s1" ["T9"] demoBank [] 5 none
        = .error (.insufficientQuestions t)) := by
  have h1 : (["T9"] : List String) ≠ [] := by decide
  have h2 : ∀ q ∈ demoBank, ∀ t ∈ (["T9"] : List String),
      q.topics.contains t = false := by decide
  exact ⟨h1, h2, assemble_insufficient_fails "s1" ["T9"] demoBank [] 5 none h1 h2⟩

/-- C7: the Topic Mapper returns the tagged topic set when the syllabus
reference contains an entry for the question, and fails with
`UnmappedQuestionError` exactly when the reference contains no entry for the
question. -/
theorem topicMapper_map_contract (reference : TopicMap) (question_id : String) :
    (∀ ts, lookupKey reference question_id = some ts →
      TopicMapper.map reference question_id = .ok ts) ∧
    (TopicMapper.map reference question_id
        = .error (.unmappedQuestion question_id)
      ↔ lookupKey reference question_id = none) := by
  unfold TopicMapper.map
  cases h : lookupKey reference question_id with
  | none => simp
  | some ts => simp

/-- Witness for C7: "q1" is tagged ["T1"] in the demo reference while "q404"
has no entry. -/
theorem topicMapper_map_contract_witness :
    lookupKey demoTopicMap "q1" = some ["T1"] ∧
    TopicMapper.map demoTopicMap "q1" = .ok ["T1"] ∧
    (TopicMapper.map demoTopicMap "q404" = .error (.unmappedQuestion "q404")
      ↔ lookupKey demoTopicMap "q404" = none) :=
  ⟨by decide, (topicMapper_map_contract demoTopicMap "q1").1 ["T1"] (by decide),
    (topicMapper_map_contract demoTopicMap "q404").2⟩

/-! Lemmas about the filesystem state. -/

/-- Looking up `pd ++ r` after prepending entries that all live under `pd`
finds the entry for `r` among them, falling back to the underlying
filesystem. -/
theorem lookup_build_under (entries : List (Path × FSNode)) (fs : FS)
    (pd r : Path) :
    FS.lookup ((entries.map fun e => (pd ++ e.1, e.2)) ++ fs) (pd ++ r)
      = (FS.lookup entries r).or (FS.lookup fs (pd ++ r)) := by
  induction entries with
  | nil => simp [FS.lookup, Option.or]
  | cons e rest ih =>
    obtain ⟨q, n⟩ := e
    simp only [List.map_cons, List.cons_append, FS.lookup]
    by_cases h : q = r
    · subst h
      simp [Option.or]
    · rw [if_neg fun hc => h (List.append_cancel_left hc), if_neg h]
      exact ih

/-- Prepended entries whose paths all differ from `p` do not affect the
lookup of `p`. -/
theorem lookup_append_not_mem (entries : List (Path × FSNode)) (fs : FS)
    (p : Path) (h : ∀ e ∈ entries, e.1 ≠ p) :
    FS.lookup (entries ++ fs) p = FS.lookup fs p := by
  induction entries with
  | nil => rfl
  | cons e rest ih =>
    obtain ⟨q, n⟩ := e
    simp only [List.cons_append, FS.lookup]
    rw [if_neg (h (q, n) (List.mem_cons_self _ _))]
    exact ih fun e he => h e (List.mem_cons_of_mem _ he)

/-- After `rmtree root`, nothing at or below `root` is left. -/
theorem lookup_rmtree_under (fs : FS) (root p : Path)
    (h : root.isPrefixOf p = true) : FS.lookup (fs.rmtree root) p = none := by
  induction fs with
  | nil => rfl
  | cons e rest ih =>
    obtain ⟨q, n⟩ := e
    unfold FS.rmtree at ih ⊢
    simp only [List.filter_cons]
    by_cases hq : root.isPrefixOf q
    · simpa [hq] using ih
    · have hqp : q ≠ p := fun hc => hq (hc ▸ h)
      simpa [hq, FS.lookup, hqp] using ih

/-- Every nonempty prefix of a path is no longer than the path. -/
theorem prefixList_length_le (p : Path) :
    ∀ pre ∈ prefixList p, pre.length ≤ p.length := by
  induction p with
  | nil => simp [prefixList]
  | cons x xs ih =>
    intro pre hpre
    simp only [prefixList, List.mem_cons, List.mem_map] at hpre
    rcases hpre with h | ⟨q, hq, rfl⟩
    · subst h
      simp
    · simpa using Nat.succ_le_succ (ih q hq)

/-- `mkdir(parents=True)` of a path does not affect the lookup of any
strictly longer path. -/
theorem lookup_addPrefixes_longer (fs : FS) (p q : Path)
    (h : p.length < q.length) :
    FS.lookup (addPrefixes fs p) q = FS.lookup fs q := by
  unfold addPrefixes
  apply lookup_append_not_mem
  intro e he
  simp only [List.mem_map] at he
  obtain ⟨pre, hpre, rfl⟩ := he
  intro hc
  have hle := prefixList_length_le p pre hpre
  have hpq : pre = q := hc
  rw [hpq] at hle
  omega

/-- A successful lookup comes from an entry of the filesystem. -/
theorem lookup_isSome_mem (fs : FS) (p : Path)
    (h : (fs.lookup p).isSome = true) : ∃ n, (p, n) ∈ fs := by
  induction fs with
  | nil => simp [FS.lookup] at h
  | cons e rest ih =>
    obtain ⟨q, n⟩ := e
    unfold FS.lookup at h
    by_cases hq : q = p
    · exact ⟨n, by simp [hq]⟩
    · rw [if_neg hq] at h
      obtain ⟨m, hm⟩ := ih h
      exact ⟨m, List.mem_cons_of_mem _ hm⟩

/-- On a well-formed filesystem, a child's existence implies its parent's. -/
theorem wf_parent_exists (fs : FS) (hwf : fs.wf) (p : Path) (x : String)
    (h : (fs.lookup (p ++ [x])).isSome = true) :
    (fs.lookup p).isSome = true := by
  obtain ⟨n, hn⟩ := lookup_isSome_mem fs (p ++ [x]) h
  have hne : p ++ [x] ≠ ([] : Path) := by simp
  have := hwf (p ++ [x], n) hn hne
  simpa [List.dropLast_concat] using this

/-- C1: with the default location confirmed, no pre-existing project directory
and git succeeding, `create_project_structure` creates, under the new project
directory, the directory structure (src, tests, data, output/student_reports,
.vscode), the placeholder `__init__.py` files, a git repository, the editor
configuration files and the CSV/JSON data templates. -/
theorem setup_creates_project (inp : SetupInput)
    (hloc : strLower inp.locResponse = "y")
    (hfresh : inp.fs.lookup (inp.currentDir ++ [projectName]) = none)
    (hgit : inp.gitOk = true) :
    (create_project_structure inp).created = true ∧
    projectDir inp = inp.currentDir ++ [projectName] ∧
    (create_project_structure inp).fs.lookup (projectDir inp ++ []) = some .dir ∧
    (create_project_structure inp).fs.lookup (projectDir inp ++ ["src"]) = some .dir ∧
    (create_project_structure inp).fs.lookup (projectDir inp ++ ["tests"]) = some .dir ∧
    (create_project_structure inp).fs.lookup (projectDir inp ++ ["data"]) = some .dir ∧
    (create_project_structure inp).fs.lookup (projectDir inp ++ ["output"]) = some .dir ∧
    (create_project_structure inp).fs.lookup (projectDir inp ++ ["output", "student_reports"]) = some .dir ∧
    (create_project_structure inp).fs.lookup (projectDir inp ++ [".vscode"]) = some .dir ∧
    (create_project_structure inp).fs.lookup (projectDir inp ++ ["src", "__init__.py"]) = some (.textFile "") ∧
    (create_project_structure inp).fs.lookup (projectDir inp ++ ["tests", "__init__.py"]) = some (.textFile "") ∧
    (create_project_structure inp).fs.lookup (projectDir inp ++ [".git"]) = some .dir ∧
    (create_project_structure inp).fs.lookup (projectDir inp ++ [".vscode", "settings.json"]) = some (.jsonFile settingsJson) ∧
    (create_project_structure inp).fs.lookup (projectDir inp ++ [".vscode", "launch.json"]) = some (.jsonFile launchJson) ∧
    (create_project_structure inp).fs.lookup (projectDir inp ++ ["data", "syllabus_topics.json"]) = some (.jsonFile syllabusJson) ∧
    (create_project_structure inp).fs.lookup (projectDir inp ++ ["data", "sample_mcq_results.csv"]) = some (.textFile "student_id,q1,q2,q3,q4,q5,total_score\n") ∧
    (create_project_structure inp).fs.lookup (projectDir inp ++ ["data", "sample_assignments.csv"]) = some (.textFile "student_id,assignment_1,assignment_2,assignment_3,total\n") ∧
    (create_project_structure inp).fs.lookup (projectDir inp ++ ["data", "sample_participation.csv"]) = some (.textFile "student_id,week_1,week_2,week_3,week_4,average\n") := by
  have hpd : projectDir inp = inp.currentDir ++ [projectName] := by
    unfold projectDir baseDir
    rw [hloc]
    simp
  have hres : create_project_structure inp
      = { fs := buildProject inp.fs (inp.currentDir ++ [projectName]) true,
          created := true } := by
    unfold create_project_structure fsAfterBase
    rw [hloc, hpd]
    simp [hfresh, hgit]
  rw [hres, hpd]
  unfold buildProject
  refine ⟨rfl, rfl, ?_, ?_, ?_, ?_, ?_, ?_, ?_, ?_, ?_, ?_, ?_, ?_, ?_, ?_, ?_, ?_⟩
    <;> rw [lookup_build_under]
    <;> rfl

/-- C8: when the project directory already exists and the overwrite prompt is
answered with anything but `y` (case-insensitively), the run is cancelled and
the (well-formed) filesystem is returned unchanged. -/
theorem setup_cancel_preserves_fs (inp : SetupInput) (hwf : inp.fs.wf)
    (hex : ((fsAfterBase inp).lookup (projectDir inp)).isSome = true)
    (hno : strLower inp.overwriteResponse ≠ "y") :
    create_project_structure inp = { fs := inp.fs, created := false } := by
  have hfs0 : fsAfterBase inp = inp.fs := by
    unfold fsAfterBase
    by_cases hl : strLower inp.locResponse ≠ "y"
    · rw [if_pos hl]
      cases hc : inp.customPath with
      | none => rfl
      | some p =>
        by_cases hp : (inp.fs.lookup p).isSome
        · simp [hp]
        · exfalso
          have hpd : projectDir inp = p ++ [projectName] := by
            unfold projectDir baseDir
            rw [if_pos hl, hc]
          have hbase : fsAfterBase inp = addPrefixes inp.fs p := by
            unfold fsAfterBase
            rw [if_pos hl, hc]
            simp [hp]
          rw [hbase, hpd] at hex
          rw [lookup_addPrefixes_longer inp.fs p (p ++ [projectName]) (by simp)]
            at hex
          exact hp (wf_parent_exists inp.fs hwf p projectName hex)
    · rw [if_neg hl]
  unfold create_project_structure
  rw [hfs0] at hex ⊢
  rw [if_pos hex, if_pos hno]

/-- C9: when the project directory already exists and the overwrite prompt is
answered `y`, the whole pre-existing tree under the project directory —
including any user file in it — is removed; only the entries recreated by the
script can remain under it. -/
theorem setup_overwrite_deletes_tree (inp : SetupInput) (q : Path)
    (hex : ((fsAfterBase inp).lookup (projectDir inp)).isSome = true)
    (hy : strLower inp.overwriteResponse = "y")
    (hq : (projectDir inp).isPrefixOf q = true)
    (hnc : ∀ e ∈ projectEntries inp.gitOk, projectDir inp ++ e.1 ≠ q) :
    (create_project_structure inp).created = true ∧
    (create_project_structure inp).fs.lookup q = none := by
  have hres : create_project_structure inp
      = { fs := buildProject ((fsAfterBase inp).rmtree (projectDir inp))
            (projectDir inp) inp.gitOk,
          created := true } := by
    unfold create_project_structure
    rw [if_pos hex, if_neg (by rw [hy]; simp)]
  rw [hres]
  refine ⟨rfl, ?_⟩
  unfold buildProject
  rw [lookup_append_not_mem _ _ _ ?side, lookup_rmtree_under _ _ _ hq]
  case side =>
    intro e he
    simp only [List.mem_map] at he
    obtain ⟨e', he', rfl⟩ := he
    exact hnc e' he'

/-- C10: a failing `git init` is non-fatal — whenever the run is not
cancelled, the script still creates all the files written after the git step
(.gitignore, requirements.txt, README.md, the VS Code configuration and the
sample data files). -/
theorem setup_git_failure_nonfatal (inp : SetupInput)
    (hgit : inp.gitOk = false)
    (hrun : ((fsAfterBase inp).lookup (projectDir inp)).isSome = false
      ∨ strLower inp.overwriteResponse = "y") :
    (create_project_structure inp).created = true ∧
    (create_project_structure inp).fs.lookup (projectDir inp ++ [".gitignore"]) = some (.textFile gitignoreContent) ∧
    (create_project_structure inp).fs.lookup (projectDir inp ++ ["requirements.txt"]) = some (.textFile requirementsContent) ∧
    (create_project_structure inp).fs.lookup (projectDir inp ++ ["README.md"]) = some (.textFile readmeContent) ∧
    (create_project_structure inp).fs.lookup (projectDir inp ++ [".vscode", "settings.json"]) = some (.jsonFile settingsJson) ∧
    (create_project_structure inp).fs.lookup (projectDir inp ++ [".vscode", "launch.json"]) = some (.jsonFile launchJson) ∧
    (create_project_structure inp).fs.lookup (projectDir inp ++ ["data", "syllabus_topics.json"]) = some (.jsonFile syllabusJson) ∧
    (create_project_structure inp).fs.lookup (projectDir inp ++ ["data", "sample_mcq_results.csv"]) = some (.textFile "student_id,q1,q2,q3,q4,q5,total_score\n") ∧
    (create_project_structure inp).fs.lookup (projectDir inp ++ ["data", "sample_assignments.csv"]) = some (.textFile "student_id,assignment_1,assignment_2,assignment_3,total\n") ∧
    (create_project_structure inp).fs.lookup (projectDir inp ++ ["data", "sample_participation.csv"]) = some (.textFile "student_id,week_1,week_2,week_3,week_4,average\n") := by
  have hres : ∃ F, create_project_structure inp
      = { fs := buildProject F (projectDir inp) false, created := true } := by
    unfold create_project_structure
    by_cases hex : ((fsAfterBase inp).lookup (projectDir inp)).isSome = true
    · rcases hrun with h | h
      · rw [hex] at h
        cases h
      · exact ⟨(fsAfterBase inp).rmtree (projectDir inp),
          by rw [if_pos hex, if_neg (by rw [h]; simp), hgit]⟩
    · exact ⟨fsAfterBase inp, by rw [if_neg hex, hgit]⟩
  obtain ⟨F, hres⟩ := hres
  rw [hres]
  unfold buildProject
  refine ⟨rfl, ?_, ?_, ?_, ?_, ?_, ?_, ?_, ?_, ?_⟩
    <;> rw [lookup_build_under]
    <;> rfl

/-- Witness for C1 at the concrete fresh run. -/
theorem setup_creates_project_witness :
    strLower demoFresh.locResponse = "y" ∧
    demoFresh.fs.lookup (demoFresh.currentDir ++ [projectName]) = none ∧
    demoFresh.gitOk = true ∧
    ((create_project_structure demoFresh).created = true ∧
      projectDir demoFresh = demoFresh.currentDir ++ [projectName] ∧
      (create_project_structure demoFresh).fs.lookup (projectDir demoFresh ++ []) = some .dir ∧
      (create_project_structure demoFresh).fs.lookup (projectDir demoFresh ++ ["src"]) = some .dir ∧
      (create_project_structure demoFresh).fs.lookup (projectDir demoFresh ++ ["tests"]) = some .dir ∧
      (create_project_structure demoFresh).fs.lookup (projectDir demoFresh ++ ["data"]) = some .dir ∧
      (create_project_structure demoFresh).fs.lookup (projectDir demoFresh ++ ["output"]) = some .dir ∧
      (create_project_structure demoFresh).fs.lookup (projectDir demoFresh ++ ["output", "student_reports"]) = some .dir ∧
      (create_project_structure demoFresh).fs.lookup (projectDir demoFresh ++ [".vscode"]) = some .dir ∧
      (create_project_structure demoFresh).fs.lookup (projectDir demoFresh ++ ["src", "__init__.py"]) = some (.textFile "") ∧
      (create_project_structure demoFresh).fs.lookup (projectDir demoFresh ++ ["tests", "__init__.py"]) = some (.textFile "") ∧
      (create_project_structure demoFresh).fs.lookup (projectDir demoFresh ++ [".git"]) = some .dir ∧
      (create_project_structure demoFresh).fs.lookup (projectDir demoFresh ++ [".vscode", "settings.json"]) = some (.jsonFile settingsJson) ∧
      (create_project_structure demoFresh).fs.lookup (projectDir demoFresh ++ [".vscode", "launch.json"]) = some (.jsonFile launchJson) ∧
      (create_project_structure demoFresh).fs.lookup (projectDir demoFresh ++ ["data", "syllabus_topics.json"]) = some (.jsonFile syllabusJson) ∧
      (create_project_structure demoFresh).fs.lookup (projectDir demoFresh ++ ["data", "sample_mcq_results.csv"]) = some (.textFile "student_id,q1,q2,q3,q4,q5,total_score\n") ∧
      (create_project_structure demoFresh).fs.lookup (projectDir demoFresh ++ ["data", "sample_assignments.csv"]) = some (.textFile "student_id,assignment_1,assignment_2,assignment_3,total\n") ∧
      (create_project_structure demoFresh).fs.lookup (projectDir demoFresh ++ ["data", "sample_participation.csv"]) = some (.textFile "student_id,week_1,week_2,week_3,week_4,average\n")) :=
  ⟨by decide, by rfl, rfl,
    setup_creates_project demoFresh (by decide) (by rfl) rfl⟩

/-- Witness for C8 at the concrete cancelled run: the filesystem, user file
included, is returned untouched. -/
theorem setup_cancel_preserves_fs_witness :
    demoCancel.fs.wf ∧
    ((fsAfterBase demoCancel).lookup (projectDir demoCancel)).isSome = true ∧
    strLower demoCancel.overwriteResponse ≠ "y" ∧
    create_project_structure demoCancel = { fs := demoCancel.fs, created := false } :=
  ⟨by decide, by decide, by decide,
    setup_cancel_preserves_fs demoCancel (by decide) (by decide) (by decide)⟩

/-- Witness for C9 at the concrete overwrite run: the pre-existing user file
is gone afterwards. -/
theorem setup_overwrite_deletes_tree_witness :
    ((fsAfterBase demoOverwrite).lookup (projectDir demoOverwrite)).isSome = true ∧
    strLower demoOverwrite.overwriteResponse = "y" ∧
    (projectDir demoOverwrite).isPrefixOf demoUserFile = true ∧
    (∀ e ∈ projectEntries demoOverwrite.gitOk,
      projectDir demoOverwrite ++ e.1 ≠ demoUserFile) ∧
    ((create_project_structure demoOverwrite).created = true ∧
      (create_project_structure demoOverwrite).fs.lookup demoUserFile = none) :=
  ⟨by decide, by decide, by decide, by decide,
    setup_overwrite_deletes_tree demoOverwrite demoUserFile (by decide)
      (by decide) (by decide) (by decide)⟩

/-- Witness for C10 at the concrete run with a failing `git init`. -/
theorem setup_git_failure_nonfatal_witness :
    demoGitFail.gitOk = false ∧
    ((fsAfterBase demoGitFail).lookup (projectDir demoGitFail)).isSome = false ∧
    ((create_project_structure demoGitFail).created = true ∧
      (create_project_structure demoGitFail).fs.lookup (projectDir demoGitFail ++ [".gitignore"]) = some (.textFile gitignoreContent) ∧
      (create_project_structure demoGitFail).fs.lookup (projectDir demoGitFail ++ ["requirements.txt"]) = some (.textFile requirementsContent) ∧
      (create_project_structure demoGitFail).fs.lookup (projectDir demoGitFail ++ ["README.md"]) = some (.textFile readmeContent) ∧
      (create_project_structure demoGitFail).fs.lookup (projectDir demoGitFail ++ [".vscode", "settings.json"]) = some (.jsonFile settingsJson) ∧
      (create_project_structure demoGitFail).fs.lookup (projectDir demoGitFail ++ [".vscode", "launch.json"]) = some (.jsonFile launchJson) ∧
      (create_project_structure demoGitFail).fs.lookup (projectDir demoGitFail ++ ["data", "syllabus_topics.json"]) = some (.jsonFile syllabusJson) ∧
      (create_project_structure demoGitFail).fs.lookup (projectDir demoGitFail ++ ["data", "sample_mcq_results.csv"]) = some (.textFile "student_id,q1,q2,q3,q4,q5,total_score\n") ∧
      (create_project_structure demoGitFail).fs.lookup (projectDir demoGitFail ++ ["data", "sample_assignments.csv"]) = some (.textFile "student_id,assignment_1,assignment_2,assignment_3,total\n") ∧
      (create_project_structure demoGitFail).fs.lookup (projectDir demoGitFail ++ ["data", "sample_participation.csv"]) = some (.textFile "student_id,week_1,week_2,week_3,week_4,average\n")) :=
  ⟨rfl, by decide,
    setup_git_failure_nonfatal demoGitFail rfl (Or.inl (by decide))⟩

end LearningAnalysis
